import Mathlib

/-!
Shallow embedding of `mcp-tasq/main.py` (the TasQ MCP server).

Modelling conventions:

* An absolute directory path is a `List String` of its components written
  innermost-first, so the parent directory of `p` is `p.tail` and the
  filesystem root is `[]` (e.g. `/home/user` is `["user", "home"]`).
  With this convention the ancestors of a directory (itself included,
  down to the root) are exactly its suffixes, and the upward walk of
  `find_tasq_directory` is structural recursion.
* A caller-supplied path string is a `PathT`: either absolute or relative,
  holding its components in the written (outermost-first) order.  The
  literal sentinel string `"."` of the Python code is the distinguished
  value `PDir.dot`; every other `project_dir` argument is `PDir.path p`.
* The filesystem and the external `tasq` executable are oracles carried in
  an `Env`: `pathExists`/`isDir` answer the `Path.exists()`/`Path.is_dir()`
  queries (on innermost-first absolute paths), and `exec` gives the outcome
  of one subprocess invocation (`subprocess.run`) for given arguments and
  working directory.  `genericErr` models Python's `str(e)` rendering of a
  `CalledProcessError` (used when stderr is empty).
* Python exceptions become `Except Err`; each `raise` site of the source
  maps to the `Err` constructor named by the spec's error taxonomy, with
  the source's exact message string.
* Every operation also returns the list of side effects it performed, in
  order: each filesystem query and each subprocess invocation is recorded
  as an `Effect`.
-/

namespace Tasq

/-- A caller-supplied path: absolute or relative, components outermost-first. -/
inductive PathT where
  | abs : List String → PathT
  | rel : List String → PathT
deriving DecidableEq, Repr

/-- The `project_dir` parameter: the literal sentinel `"."` or an explicit path. -/
inductive PDir where
  | dot : PDir
  | path : PathT → PDir
deriving DecidableEq, Repr

/-- The error taxonomy of the spec; each carries the Python message string. -/
inductive Err where
  | invalidArgument : String → Err
  | projectNotFound : String → Err
  | commandFailed : String → Err
  | executableNotFound : String → Err
deriving DecidableEq, Repr

/-- Python `str(e)`: the message an exception carries. -/
def errMsg : Err → String
  | .invalidArgument m => m
  | .projectNotFound m => m
  | .commandFailed m => m
  | .executableNotFound m => m

/-- One observable side effect: a filesystem existence query, a filesystem
directory-kind query, or one subprocess invocation (arguments, working dir). -/
inductive Effect where
  | fsExists : List String → Effect
  | fsIsDir : List String → Effect
  | runCmd : List String → PathT → Effect
deriving DecidableEq, Repr

/-- Outcome of one `subprocess.run` of the external program: it ran and
terminated with an exit code, stdout and stderr, or the executable could
not be found (`FileNotFoundError`). -/
inductive ExecResult where
  | ran : Int → String → String → ExecResult
  | notFound : ExecResult
deriving DecidableEq, Repr

/-- The filesystem oracle, queried on innermost-first absolute paths. -/
structure FS where
  pathExists : List String → Bool
  isDir : List String → Bool

/-- The whole environment of one tool call: filesystem, the process's current
working directory (innermost-first, absolute), the subprocess oracle, and the
rendering of `str(CalledProcessError)` for empty-stderr failures. -/
structure Env where
  fs : FS
  cwd : List String
  exec : List String → PathT → ExecResult
  genericErr : List String → Int → String

/-- Resolve a `PathT` against the current working directory to an
innermost-first absolute path (`os.path.abspath` / `Path.resolve`,
normalisation of `..` segments not modelled). -/
def toAbsRev (cwd : List String) : PathT → List String
  | .abs s => s.reverse
  | .rel s => s.reverse ++ cwd

/-- Render a `PathT` the way Python would print the argument string. -/
def pathStr : PathT → String
  | .abs s => "/" ++ String.intercalate "/" s
  | .rel s => String.intercalate "/" s

/-- Render an innermost-first absolute path as the usual `/`-joined string. -/
def pathOfRev (r : List String) : String :=
  "/" ++ String.intercalate "/" r.reverse

/-- `os.path.basename` of an innermost-first absolute path (the root gives `""`). -/
def basename (r : List String) : String :=
  r.headD ""

/-- The body of the loop of `find_tasq_directory`: does `dir` directly contain
`.tasq`?  Python evaluates `tasq_dir.exists() and tasq_dir.is_dir()`, short
circuiting, so the `is_dir` query happens only when the entry exists. -/
def checkMarker (fs : FS) (dir : List String) : Bool × List Effect :=
  let t := ".tasq" :: dir
  if fs.pathExists t then (fs.isDir t, [Effect.fsExists t, Effect.fsIsDir t])
  else (false, [Effect.fsExists t])

/-- `find_tasq_directory` (main.py lines 20-38): walk from `start` up through
every parent to the root, returning the first (nearest) directory that
directly contains a `.tasq` directory, or `none`. -/
def find_tasq_directory (fs : FS) : List String → Option (List String) × List Effect
  | [] =>
    let c := checkMarker fs []
    if c.fst then (some [], c.snd) else (none, c.snd)
  | d :: rest =>
    let c := checkMarker fs (d :: rest)
    if c.fst then (some (d :: rest), c.snd)
    else
      let r := find_tasq_directory fs rest
      (r.fst, c.snd ++ r.snd)

/-- `get_project_directory` (main.py lines 40-65): `"."` auto-detects via the
upward search from the current working directory; an explicit path is only
checked for the existence (not directory-kind) of `.tasq` directly under it
and is returned unchanged. -/
def get_project_directory (env : Env) : PDir → Except Err PathT × List Effect
  | .dot =>
    let r := find_tasq_directory env.fs env.cwd
    match r.fst with
    | none =>
      (.error (.projectNotFound "No .tasq directory found. Please run 'tasq init' to initialize a project, or specify an explicit project_dir."), r.snd)
    | some d => (.ok (PathT.abs d.reverse), r.snd)
  | .path pt =>
    let t := ".tasq" :: toAbsRev env.cwd pt
    if env.fs.pathExists t then (.ok pt, [Effect.fsExists t])
    else
      (.error (.projectNotFound ("No .tasq directory found in " ++ pathStr pt ++ ". Please run 'tasq init' in that directory first.")), [Effect.fsExists t])

/-- `run_tasq_command` (main.py lines 67-95): one `subprocess.run` of `tasq`
with `args` in `cwd`.  Exit 0 returns stripped stdout; non-zero raises with
the stripped stderr (or `str(e)` when stderr is empty); a missing executable
raises the installation message. -/
def run_tasq_command (env : Env) (args : List String) (cwd : PathT) :
    Except Err String × List Effect :=
  match env.exec args cwd with
  | .ran c out errS =>
    if c = 0 then (.ok out.trim, [Effect.runCmd args cwd])
    else
      (.error (.commandFailed ("TasQ command failed: " ++ (if errS = "" then env.genericErr args c else errS.trim))), [Effect.runCmd args cwd])
  | .notFound =>
    (.error (.executableNotFound "TasQ binary not found. Please ensure 'tasq' is installed and in your PATH."), [Effect.runCmd args cwd])

/-- `add_task` (main.py lines 97-115): validate the priority range first, then
resolve the directory, run `tasq add`, and return the local confirmation. -/
def add_task (env : Env) (description : String) (priority : Int) (project_dir : PDir) :
    Except Err String × List Effect :=
  if 1 ≤ priority ∧ priority ≤ 5 then
    match get_project_directory env project_dir with
    | (.error e, tr) => (.error e, tr)
    | (.ok d, tr) =>
      let r := run_tasq_command env ["add", description, "--priority", toString priority] d
      match r.fst with
      | .error e => (.error e, tr ++ r.snd)
      | .ok _ =>
        (.ok ("✅ Task added: " ++ description ++ " (priority: " ++ toString priority ++ ")"), tr ++ r.snd)
  else
    (.error (.invalidArgument "Priority must be between 1 and 5"), [])

/-- `list_tasks` (main.py lines 117-140). -/
def list_tasks (env : Env) (show_completed : Bool) (project_dir : PDir) :
    Except Err String × List Effect :=
  let args := ["list"] ++ (if show_completed then ["--completed"] else ["--pending"])
  match get_project_directory env project_dir with
  | (.error e, tr) => (.error e, tr)
  | (.ok d, tr) =>
    let r := run_tasq_command env args d
    match r.fst with
    | .error e => (.error e, tr ++ r.snd)
    | .ok out =>
      if out = "" then (.ok "📝 No tasks found.", tr ++ r.snd)
      else (.ok ("📋 **Tasks:**\n" ++ out), tr ++ r.snd)

/-- `get_next_task` (main.py lines 142-158). -/
def get_next_task (env : Env) (project_dir : PDir) : Except Err String × List Effect :=
  match get_project_directory env project_dir with
  | (.error e, tr) => (.error e, tr)
  | (.ok d, tr) =>
    let r := run_tasq_command env ["next"] d
    match r.fst with
    | .error e => (.error e, tr ++ r.snd)
    | .ok out =>
      if out = "" then (.ok "🎉 No pending tasks! All caught up.", tr ++ r.snd)
      else (.ok ("⏭️ **Next task:**\n" ++ out), tr ++ r.snd)

/-- `complete_task` (main.py lines 160-188): run `tasq complete`; on success
chain a `tasq next` call whose failure is swallowed into a warning line. -/
def complete_task (env : Env) (task_identifier : String) (project_dir : PDir) :
    Except Err String × List Effect :=
  match get_project_directory env project_dir with
  | (.error e, tr) => (.error e, tr)
  | (.ok d, tr) =>
    let r := run_tasq_command env ["complete", task_identifier] d
    match r.fst with
    | .error e => (.error e, tr ++ r.snd)
    | .ok out =>
      let result := "✅ " ++ out
      let r2 := run_tasq_command env ["next"] d
      match r2.fst with
      | .ok nxt =>
        if nxt = "" then
          (.ok (result ++ "\n\n🎉 All tasks completed! Great work!"), tr ++ r.snd ++ r2.snd)
        else
          (.ok (result ++ "\n\n⏭️ **Next task:**\n" ++ nxt), tr ++ r.snd ++ r2.snd)
      | .error e =>
        (.ok (result ++ "\n\n⚠️ Could not fetch next task: " ++ errMsg e), tr ++ r.snd ++ r2.snd)

/-- `set_task_priority` (main.py lines 190-208): same local validation as
`add_task`, then `tasq set-priority`, echoing the external output. -/
def set_task_priority (env : Env) (task_identifier : String) (priority : Int)
    (project_dir : PDir) : Except Err String × List Effect :=
  if 1 ≤ priority ∧ priority ≤ 5 then
    match get_project_directory env project_dir with
    | (.error e, tr) => (.error e, tr)
    | (.ok d, tr) =>
      let r := run_tasq_command env ["set-priority", task_identifier, toString priority] d
      match r.fst with
      | .error e => (.error e, tr ++ r.snd)
      | .ok out => (.ok ("🔄 " ++ out), tr ++ r.snd)
  else
    (.error (.invalidArgument "Priority must be between 1 and 5"), [])

/-- The `try:` body of `get_project_status` (main.py lines 221-257): resolve,
run the three list calls, best-effort `next`, and compose the summary. -/
def get_project_status_body (env : Env) (project_dir : PDir) :
    Except Err String × List Effect :=
  match get_project_directory env project_dir with
  | (.error e, tr) => (.error e, tr)
  | (.ok d, tr) =>
    let rAll := run_tasq_command env ["list"] d
    match rAll.fst with
    | .error e => (.error e, tr ++ rAll.snd)
    | .ok all_tasks =>
      let rPend := run_tasq_command env ["list", "--pending"] d
      match rPend.fst with
      | .error e => (.error e, tr ++ rAll.snd ++ rPend.snd)
      | .ok pending_tasks =>
        let rComp := run_tasq_command env ["list", "--completed"] d
        match rComp.fst with
        | .error e => (.error e, tr ++ rAll.snd ++ rPend.snd ++ rComp.snd)
        | .ok completed_tasks =>
          let total_count := if all_tasks ≠ "" then (all_tasks.splitOn "\n").length else 0
          let pending_count := if pending_tasks ≠ "" then (pending_tasks.splitOn "\n").length else 0
          let completed_count := if completed_tasks ≠ "" then (completed_tasks.splitOn "\n").length else 0
          let rNext := run_tasq_command env ["next"] d
          let next_task : Option String :=
            match rNext.fst with
            | .ok s => some s
            | .error _ => none
          let abs_project_dir := toAbsRev env.cwd d
          let project_name := basename abs_project_dir
          let status :=
            "📊 **Project: " ++ project_name ++ "**\n" ++
            "📁 Path: " ++ pathOfRev abs_project_dir ++ "\n" ++
            "📝 Total tasks: " ++ toString total_count ++ "\n" ++
            "⏳ Pending: " ++ toString pending_count ++ "\n" ++
            "✅ Completed: " ++ toString completed_count ++ "\n\n"
          let status2 :=
            match next_task with
            | some nt => if nt = "" then status else status ++ "⏭️ **Next task:**\n" ++ nt ++ "\n\n"
            | none => status
          let status3 :=
            if pending_tasks ≠ "" then status2 ++ "📋 **Pending tasks:**\n" ++ pending_tasks
            else status2 ++ "🎉 All tasks completed!"
          (.ok status3, tr ++ rAll.snd ++ rPend.snd ++ rComp.snd ++ rNext.snd)

/-- `get_project_status` (main.py lines 210-260): the whole body runs under a
`try/except` that turns any failure into a formatted error string result. -/
def get_project_status (env : Env) (project_dir : PDir) :
    Except Err String × List Effect :=
  let r := get_project_status_body env project_dir
  match r.fst with
  | .ok s => (.ok s, r.snd)
  | .error e => (.ok ("❌ Error getting project status: " ++ errMsg e), r.snd)

/-- A directory directly contains the marker directory `.tasq` (the entry
exists and is a directory), as the upward search tests it. -/
def markerAt (fs : FS) (dir : List String) : Bool :=
  fs.pathExists (".tasq" :: dir) && fs.isDir (".tasq" :: dir)

/-- The status header as the spec words it - project name (the last path
segment of the absolute resolved directory), absolute path, and the three
counts, each count the number of newline-separated lines of the trimmed
output with an empty output counting as zero.  Declared separately from
`get_project_status_body` so the composed output can be compared against it. -/
def specStatusHeader (env : Env) (d : PathT) (allT pendT compT : String) : String :=
  "📊 **Project: " ++ basename (toAbsRev env.cwd d) ++ "**\n" ++
  "📁 Path: " ++ pathOfRev (toAbsRev env.cwd d) ++ "\n" ++
  "📝 Total tasks: " ++
    toString (if allT = "" then 0 else (allT.splitOn "\n").length) ++ "\n" ++
  "⏳ Pending: " ++
    toString (if pendT = "" then 0 else (pendT.splitOn "\n").length) ++ "\n" ++
  "✅ Completed: " ++
    toString (if compT = "" then 0 else (compT.splitOn "\n").length) ++ "\n\n"

/-- The final section of the status summary as the spec words it: the pending
listing when there are pending tasks, the all-complete message otherwise. -/
def specStatusTail (pendT : String) : String :=
  if pendT = "" then "🎉 All tasks completed!"
  else "📋 **Pending tasks:**\n" ++ pendT

/-- A concrete environment whose filesystem holds a single project: the
marker directory `.tasq` sits in `/home/proj`, the current working directory.
The external program answers each subcommand with a fixed outcome. -/
def envP : Env :=
  { fs :=
      { pathExists := fun p => p = [".tasq", "proj", "home"]
        isDir := fun p => p = [".tasq", "proj", "home"] }
    cwd := ["proj", "home"]
    exec := fun args _ =>
      if args = ["complete", "7"] then .ran 0 "Task 7 done" ""
      else if args = ["list"] then .ran 0 "T1 a\nT2 b" ""
      else if args = ["list", "--pending"] then .ran 0 "T1 a" ""
      else if args = ["list", "--completed"] then .ran 0 "T2 b" ""
      else .ran 0 "" ""
    genericErr := fun _ _ => "subprocess error" }

/-- A concrete environment with no `.tasq` anywhere on the filesystem. -/
def envN : Env :=
  { fs := { pathExists := fun _ => false, isDir := fun _ => false }
    cwd := ["u", "home"]
    exec := fun _ _ => .ran 0 "" ""
    genericErr := fun _ _ => "subprocess error" }

/-- A concrete environment where `/p/.tasq` exists but is a plain file, not a
directory. -/
def envC : Env :=
  { fs := { pathExists := fun p => p = [".tasq", "p"], isDir := fun _ => false }
    cwd := []
    exec := fun _ _ => .ran 0 "" ""
    genericErr := fun _ _ => "subprocess error" }

theorem checkMarker_fst (fs : FS) (dir : List String) :
    (checkMarker fs dir).fst = markerAt fs dir := by
  by_cases h : fs.pathExists (".tasq" :: dir) <;> simp [checkMarker, markerAt, h]

theorem checkMarker_no_run (fs : FS) (dir : List String) (a : List String) (c : PathT) :
    Effect.runCmd a c ∉ (checkMarker fs dir).snd := by
  by_cases h : fs.pathExists (".tasq" :: dir) <;> simp [checkMarker, h]

/-- The upward search finds nothing exactly when no ancestor of `start`
(itself and every suffix, down to the root) contains the marker. -/
theorem find_tasq_directory_none_iff (fs : FS) (start : List String) :
    (find_tasq_directory fs start).fst = none ↔
      ∀ pre, pre <:+ start → markerAt fs pre = false := by
  induction start with
  | nil =>
    cases hb : markerAt fs [] with
    | false =>
      simp only [find_tasq_directory, checkMarker_fst, hb, Bool.false_eq_true,
        if_false, iff_true_intro rfl, true_iff]
      intro pre hpre
      rcases List.suffix_nil.mp hpre with rfl
      exact hb
    | true =>
      simp only [find_tasq_directory, checkMarker_fst, hb, if_true]
      constructor
      · intro hc
        cases hc
      · intro hall
        have := hall [] List.suffix_rfl
        rw [hb] at this
        cases this
  | cons a rest ih =>
    cases hb : markerAt fs (a :: rest) with
    | false =>
      simp only [find_tasq_directory, checkMarker_fst, hb, Bool.false_eq_true, if_false]
      rw [ih]
      constructor
      · intro hall pre hpre
        rcases List.suffix_cons_iff.mp hpre with rfl | hsuf
        · exact hb
        · exact hall pre hsuf
      · intro hall pre hpre
        exact hall pre (List.suffix_cons_iff.mpr (Or.inr hpre))
    | true =>
      simp only [find_tasq_directory, checkMarker_fst, hb, if_true]
      constructor
      · intro hc
        cases hc
      · intro hall
        have := hall (a :: rest) List.suffix_rfl
        rw [hb] at this
        cases this

theorem find_tasq_directory_some_spec (fs : FS) (start : List String)
    (d : List String) (h : (find_tasq_directory fs start).fst = some d) :
    d <:+ start ∧ markerAt fs d = true ∧
      ∀ pre, pre <:+ start → markerAt fs pre = true → pre.length ≤ d.length := by
  induction start with
  | nil =>
    cases hb : markerAt fs [] with
    | false =>
      rw [show (find_tasq_directory fs []).fst = none by
        simp [find_tasq_directory, checkMarker_fst, hb]] at h
      cases h
    | true =>
      have hd : d = [] := by
        simpa [find_tasq_directory, checkMarker_fst, hb] using h.symm
      subst hd
      refine ⟨List.suffix_rfl, hb, ?_⟩
      intro pre hpre _
      exact hpre.length_le
  | cons a rest ih =>
    cases hb : markerAt fs (a :: rest) with
    | true =>
      have hd : d = a :: rest := by
        simpa [find_tasq_directory, checkMarker_fst, hb] using h.symm
      subst hd
      refine ⟨List.suffix_rfl, hb, ?_⟩
      intro pre hpre _
      exact hpre.length_le
    | false =>
      have h2 : (find_tasq_directory fs rest).fst = some d := by
        simpa [find_tasq_directory, checkMarker_fst, hb] using h
      rcases ih h2 with ⟨hsuf, hmark, hnear⟩
      refine ⟨hsuf.trans (List.suffix_cons a rest), hmark, ?_⟩
      intro pre hpre hpm
      rcases List.suffix_cons_iff.mp hpre with rfl | hsuf2
      · rw [hb] at hpm
        cases hpm
      · exact hnear pre hsuf2 hpm

theorem find_tasq_directory_self (fs : FS) (start : List String)
    (h : markerAt fs start = true) :
    (find_tasq_directory fs start).fst = some start := by
  cases start with
  | nil => simp [find_tasq_directory, checkMarker_fst, h]
  | cons a rest => simp [find_tasq_directory, checkMarker_fst, h]

theorem find_tasq_directory_no_run (fs : FS) (start : List String)
    (a : List String) (c : PathT) :
    Effect.runCmd a c ∉ (find_tasq_directory fs start).snd := by
  induction start with
  | nil =>
    cases hb : (checkMarker fs []).fst <;>
      simpa [find_tasq_directory, hb] using checkMarker_no_run fs [] a c
  | cons x rest ih =>
    cases hb : (checkMarker fs (x :: rest)).fst with
    | true =>
      simpa [find_tasq_directory, hb] using checkMarker_no_run fs (x :: rest) a c
    | false =>
      simp only [find_tasq_directory, hb, Bool.false_eq_true, if_false, List.mem_append]
      intro hmem
      rcases hmem with hmem | hmem
      · exact checkMarker_no_run fs (x :: rest) a c hmem
      · exact ih hmem

theorem get_project_directory_no_run (env : Env) (pd : PDir)
    (a : List String) (c : PathT) :
    Effect.runCmd a c ∉ (get_project_directory env pd).snd := by
  cases pd with
  | dot =>
    simp only [get_project_directory]
    cases hf : (find_tasq_directory env.fs env.cwd).fst <;>
      simpa [hf] using find_tasq_directory_no_run env.fs env.cwd a c
  | path pt =>
    simp only [get_project_directory]
    by_cases h : env.fs.pathExists (".tasq" :: toAbsRev env.cwd pt) <;> simp [h]

theorem run_tasq_command_snd (env : Env) (args : List String) (cwd : PathT) :
    (run_tasq_command env args cwd).snd = [Effect.runCmd args cwd] := by
  cases h : env.exec args cwd with
  | ran c out errS =>
    by_cases hc : c = 0 <;> simp [run_tasq_command, h, hc]
  | notFound => simp [run_tasq_command, h]

theorem run_tasq_command_ok (env : Env) (args : List String) (cwd : PathT)
    (out errS : String) (h : env.exec args cwd = .ran 0 out errS) :
    run_tasq_command env args cwd = (.ok out.trim, [Effect.runCmd args cwd]) := by
  simp [run_tasq_command, h]

/-- C1: for every priority outside [1,5], `add_task` and `set_task_priority`
fail with the `InvalidArgument` condition and an empty effect trace: no
filesystem query and no subprocess invocation happens on this error path. -/
theorem priority_validation_fails_fast (env : Env)
    (description task_identifier : String) (p : Int) (pd : PDir)
    (h : p < 1 ∨ 5 < p) :
    add_task env description p pd
      = (.error (.invalidArgument "Priority must be between 1 and 5"), []) ∧
    set_task_priority env task_identifier p pd
      = (.error (.invalidArgument "Priority must be between 1 and 5"), []) := by
  have hc : ¬(1 ≤ p ∧ p ≤ 5) := by omega
  constructor
  · simp [add_task, hc]
  · simp [set_task_priority, hc]

/-- C1 witness: priority 6 is rejected with no side effects. -/
theorem priority_validation_fails_fast_witness :
    add_task envN "write spec" 6 .dot
      = (.error (.invalidArgument "Priority must be between 1 and 5"), []) ∧
    set_task_priority envN "7" 6 .dot
      = (.error (.invalidArgument "Priority must be between 1 and 5"), []) :=
  priority_validation_fails_fast envN "write spec" "7" 6 .dot (by decide)

/-- C6: one invocation of the command executor has exactly one of three
outcomes - exit 0 returns trimmed stdout, a non-zero exit fails with
`CommandFailed` carrying the trimmed stderr (or the generic `str(e)` message
when stderr was empty), and a missing executable fails with
`ExecutableNotFound` and the installation message - and it records exactly
one subprocess invocation (nothing is retried). -/
theorem run_tasq_command_trichotomy (env : Env) (args : List String) (cwd : PathT) :
    (run_tasq_command env args cwd).snd = [Effect.runCmd args cwd] ∧
    (∀ out errS, env.exec args cwd = .ran 0 out errS →
      (run_tasq_command env args cwd).fst = .ok out.trim) ∧
    (∀ c out errS, env.exec args cwd = .ran c out errS → c ≠ 0 →
      (run_tasq_command env args cwd).fst =
        .error (.commandFailed ("TasQ command failed: " ++
          (if errS = "" then env.genericErr args c else errS.trim)))) ∧
    (env.exec args cwd = .notFound →
      (run_tasq_command env args cwd).fst =
        .error (.executableNotFound
          "TasQ binary not found. Please ensure 'tasq' is installed and in your PATH.")) := by
  refine ⟨run_tasq_command_snd env args cwd, ?_, ?_, ?_⟩
  · intro out errS h
    simp [run_tasq_command, h]
  · intro c out errS h hc
    simp [run_tasq_command, h, hc]
  · intro h
    simp [run_tasq_command, h]

/-- C10: a failure of the primary complete invocation (directory resolution
included) propagates unchanged out of `complete_task`, and the chained
next-task invocation is never attempted. -/
theorem complete_task_primary_failure_propagates (env : Env) (tid : String) (pd : PDir) :
    (∀ e tr, get_project_directory env pd = (.error e, tr) →
      complete_task env tid pd = (.error e, tr) ∧
      ∀ a c, Effect.runCmd a c ∉ (complete_task env tid pd).snd) ∧
    (∀ d tr e, get_project_directory env pd = (.ok d, tr) →
      (run_tasq_command env ["complete", tid] d).fst = .error e →
      (complete_task env tid pd).fst = .error e ∧
      (complete_task env tid pd).snd = tr ++ [Effect.runCmd ["complete", tid] d] ∧
      Effect.runCmd ["next"] d ∉ (complete_task env tid pd).snd) := by
  constructor
  · intro e tr hgd
    have heq : complete_task env tid pd = (.error e, tr) := by
      simp [complete_task, hgd]
    refine ⟨heq, ?_⟩
    intro a c
    rw [heq]
    have := get_project_directory_no_run env pd a c
    rw [hgd] at this
    exact this
  · intro d tr e hgd hrun
    have hsnd := run_tasq_command_snd env ["complete", tid] d
    have heq : complete_task env tid pd =
        (.error e, tr ++ [Effect.runCmd ["complete", tid] d]) := by
      simp only [complete_task, hgd]
      rcases hr : run_tasq_command env ["complete", tid] d with ⟨fst, snd⟩
      rw [hr] at hrun hsnd
      simp at hrun hsnd
      subst hrun
      subst hsnd
      simp
    rw [heq]
    refine ⟨rfl, rfl, ?_⟩
    intro hmem
    rcases List.mem_append.mp hmem with hmem | hmem
    · have := get_project_directory_no_run env pd ["next"] d
      rw [hgd] at this
      exact this hmem
    · simp at hmem
/-- C2: when the primary complete invocation succeeds, the result of
`complete_task` is a success string that begins with the primary
confirmation (the check mark and the complete command's trimmed output);
a failing chained next-task call appends a warning carrying that error's
message, an empty chained success appends the celebration, and a non-empty
chained success appends the next-task heading and output - the primary
confirmation being present in all three cases. -/
theorem complete_task_chained_composition (env : Env) (tid : String) (pd : PDir)
    (d : PathT) (tr : List Effect) (out errS : String)
    (hgd : get_project_directory env pd = (.ok d, tr))
    (hc : env.exec ["complete", tid] d = .ran 0 out errS) :
    ∃ s, (complete_task env tid pd).fst = .ok s ∧
      (∃ t, s = ("✅ " ++ out.trim) ++ t) ∧
      (∀ e, (run_tasq_command env ["next"] d).fst = .error e →
        s = ("✅ " ++ out.trim) ++ ("\n\n⚠️ Could not fetch next task: " ++ errMsg e)) ∧
      ((run_tasq_command env ["next"] d).fst = .ok "" →
        s = ("✅ " ++ out.trim) ++ "\n\n🎉 All tasks completed! Great work!") ∧
      (∀ nxt, (run_tasq_command env ["next"] d).fst = .ok nxt → nxt ≠ "" →
        s = ("✅ " ++ out.trim) ++ ("\n\n⏭️ **Next task:**\n" ++ nxt)) := by
  have hrun := run_tasq_command_ok env ["complete", tid] d out errS hc
  rcases hn : run_tasq_command env ["next"] d with ⟨nfst, nsnd⟩
  cases nfst with
  | ok nxt =>
    by_cases hne : nxt = ""
    · subst hne
      refine ⟨("✅ " ++ out.trim) ++ "\n\n🎉 All tasks completed! Great work!",
        ?_, ⟨_, rfl⟩, ?_, ?_, ?_⟩
      · simp [complete_task, hgd, hrun, hn]
      · intro e he
        simp at he
      · intro _
        rfl
      · intro nxt hnx hne2
        simp at hnx
        exact absurd hnx.symm hne2
    · refine ⟨("✅ " ++ out.trim) ++ ("\n\n⏭️ **Next task:**\n" ++ nxt),
        ?_, ⟨_, rfl⟩, ?_, ?_, ?_⟩
      · simp [complete_task, hgd, hrun, hn, hne, String.append_assoc]
      · intro e he
        simp at he
      · intro he
        simp at he
        exact absurd he hne
      · intro nxt2 hnx hne2
        simp at hnx
        subst hnx
        rfl
  | error e =>
    refine ⟨("✅ " ++ out.trim) ++ ("\n\n⚠️ Could not fetch next task: " ++ errMsg e),
      ?_, ⟨_, rfl⟩, ?_, ?_, ?_⟩
    · simp [complete_task, hgd, hrun, hn, String.append_assoc]
    · intro e2 he
      simp at he
      subst he
      rfl
    · intro he
      simp at he
    · intro nxt hnx hne
      simp at hnx

/-- C2 witness: completing task 7 in the concrete project, where the chained
next call succeeds with empty output, yields the confirmation followed by the
celebration segment. -/
theorem complete_task_chained_composition_witness :
    ∃ s, (complete_task envP "7" .dot).fst = .ok s ∧
      (∃ t, s = ("✅ " ++ String.trim "Task 7 done") ++ t) ∧
      (∀ e, (run_tasq_command envP ["next"] (PathT.abs ["home", "proj"])).fst = .error e →
        s = ("✅ " ++ String.trim "Task 7 done") ++
          ("\n\n⚠️ Could not fetch next task: " ++ errMsg e)) ∧
      ((run_tasq_command envP ["next"] (PathT.abs ["home", "proj"])).fst = .ok "" →
        s = ("✅ " ++ String.trim "Task 7 done") ++ "\n\n🎉 All tasks completed! Great work!") ∧
      (∀ nxt, (run_tasq_command envP ["next"] (PathT.abs ["home", "proj"])).fst = .ok nxt →
        nxt ≠ "" →
        s = ("✅ " ++ String.trim "Task 7 done") ++ ("\n\n⏭️ **Next task:**\n" ++ nxt)) :=
  complete_task_chained_composition envP "7" .dot (PathT.abs ["home", "proj"])
    [Effect.fsExists [".tasq", "proj", "home"], Effect.fsIsDir [".tasq", "proj", "home"]]
    "Task 7 done" "" rfl rfl

/-- C3: `get_project_status` always returns a success string, whatever the
environment does; when its body fails with any error, the returned string is
the formatted error message for that error. -/
theorem get_project_status_never_raises (env : Env) (pd : PDir) :
    ∃ s, (get_project_status env pd).fst = .ok s ∧
      ∀ e, (get_project_status_body env pd).fst = .error e →
        s = "❌ Error getting project status: " ++ errMsg e := by
  rcases hb : (get_project_status_body env pd).fst with e | s
  · refine ⟨"❌ Error getting project status: " ++ errMsg e, ?_, ?_⟩
    · simp [get_project_status, hb]
    · intro e2 he
      simp at he
      subst he
      rfl
  · refine ⟨s, ?_, ?_⟩
    · simp [get_project_status, hb]
    · intro e he
      simp at he

/-- C9: with a successful resolution and a zero-exit next command,
`get_next_task` returns the literal all-caught-up message exactly when the
trimmed output is empty, otherwise the heading followed by the output, and
the bare empty-heading string is never a result. -/
theorem get_next_task_empty_output (env : Env) (pd : PDir) (d : PathT)
    (tr : List Effect) (out errS : String)
    (hgd : get_project_directory env pd = (.ok d, tr))
    (hx : env.exec ["next"] d = .ran 0 out errS) :
    (get_next_task env pd).fst =
      .ok (if out.trim = "" then "🎉 No pending tasks! All caught up."
           else "⏭️ **Next task:**\n" ++ out.trim) ∧
    ∀ s, (get_next_task env pd).fst = .ok s → s ≠ "⏭️ **Next task:**\n" := by
  have hrun := run_tasq_command_ok env ["next"] d out errS hx
  have heq : (get_next_task env pd).fst =
      .ok (if out.trim = "" then "🎉 No pending tasks! All caught up."
           else "⏭️ **Next task:**\n" ++ out.trim) := by
    by_cases he : out.trim = "" <;> simp [get_next_task, hgd, hrun, he]
  refine ⟨heq, ?_⟩
  intro s hs
  rw [heq] at hs
  simp at hs
  subst hs
  by_cases he : out.trim = ""
  · rw [if_pos he]
    decide
  · rw [if_neg he]
    intro hcontra
    have hlen := congrArg String.length hcontra
    rw [String.length_append] at hlen
    have : 0 < out.trim.length := by
      cases hq : out.trim with
      | mk data =>
        cases data with
        | nil => exact absurd hq he
        | cons c cs => simp [String.length]
    omega

/-- C9 witness: in the concrete project the next command returns empty
output and the all-caught-up message is produced. -/
theorem get_next_task_empty_output_witness :
    (get_next_task envP .dot).fst =
      .ok (if String.trim "" = "" then "🎉 No pending tasks! All caught up."
           else "⏭️ **Next task:**\n" ++ String.trim "") ∧
    ∀ s, (get_next_task envP .dot).fst = .ok s → s ≠ "⏭️ **Next task:**\n" :=
  get_next_task_empty_output envP .dot (PathT.abs ["home", "proj"])
    [Effect.fsExists [".tasq", "proj", "home"], Effect.fsIsDir [".tasq", "proj", "home"]]
    "" "" rfl rfl
/-- C4: auto-detect resolution searches upward from the current working
directory through every ancestor to the root inclusive: it fails exactly
when no ancestor contains the marker, any directory it returns is the
nearest (longest) marker-bearing ancestor, and in the not-found case
`add_task` (with a valid priority) fails with the `ProjectNotFound`
condition carrying the remediation message, having run no subprocess.
The search is a total function, so it always terminates. -/
theorem auto_detect_search_not_found (env : Env) (description : String) (p : Int)
    (h1 : 1 ≤ p) (h5 : p ≤ 5) :
    ((find_tasq_directory env.fs env.cwd).fst = none ↔
      ∀ pre, pre <:+ env.cwd → markerAt env.fs pre = false) ∧
    (∀ d, (find_tasq_directory env.fs env.cwd).fst = some d →
      d <:+ env.cwd ∧ markerAt env.fs d = true ∧
      ∀ pre, pre <:+ env.cwd → markerAt env.fs pre = true → pre.length ≤ d.length) ∧
    ((find_tasq_directory env.fs env.cwd).fst = none →
      add_task env description p .dot =
        (.error (.projectNotFound "No .tasq directory found. Please run 'tasq init' to initialize a project, or specify an explicit project_dir."),
         (find_tasq_directory env.fs env.cwd).snd) ∧
      ∀ a c, Effect.runCmd a c ∉ (add_task env description p .dot).snd) := by
  refine ⟨find_tasq_directory_none_iff env.fs env.cwd,
    fun d hd => find_tasq_directory_some_spec env.fs env.cwd d hd, ?_⟩
  intro hnone
  have hval : 1 ≤ p ∧ p ≤ 5 := ⟨h1, h5⟩
  have heq : add_task env description p .dot =
      (.error (.projectNotFound "No .tasq directory found. Please run 'tasq init' to initialize a project, or specify an explicit project_dir."),
       (find_tasq_directory env.fs env.cwd).snd) := by
    simp [add_task, hval, get_project_directory, hnone]
  refine ⟨heq, ?_⟩
  intro a c
  rw [heq]
  exact find_tasq_directory_no_run env.fs env.cwd a c

/-- C4 witness: on a filesystem with no marker anywhere, adding a task with
priority 3 under auto-detect fails with `ProjectNotFound` and no subprocess. -/
theorem auto_detect_search_not_found_witness :
    ((find_tasq_directory envN.fs envN.cwd).fst = none ↔
      ∀ pre, pre <:+ envN.cwd → markerAt envN.fs pre = false) ∧
    (∀ d, (find_tasq_directory envN.fs envN.cwd).fst = some d →
      d <:+ envN.cwd ∧ markerAt envN.fs d = true ∧
      ∀ pre, pre <:+ envN.cwd → markerAt envN.fs pre = true → pre.length ≤ d.length) ∧
    ((find_tasq_directory envN.fs envN.cwd).fst = none →
      add_task envN "buy milk" 3 .dot =
        (.error (.projectNotFound "No .tasq directory found. Please run 'tasq init' to initialize a project, or specify an explicit project_dir."),
         (find_tasq_directory envN.fs envN.cwd).snd) ∧
      ∀ a c, Effect.runCmd a c ∉ (add_task envN "buy milk" 3 .dot).snd) :=
  auto_detect_search_not_found envN "buy milk" 3 (by decide) (by decide)

/-- C5 counterexample: in `envC` the entry `/p/.tasq` exists but is not a
directory, so the marker directory is absent under the explicit path `/p`;
the claim demands a `ProjectNotFound` failure, yet resolution succeeds and
returns the path, because the code checks only existence, never the kind. -/
theorem explicit_path_counterexample :
    markerAt envC.fs (toAbsRev envC.cwd (PathT.abs ["p"])) = false ∧
    envC.fs.pathExists (".tasq" :: toAbsRev envC.cwd (PathT.abs ["p"])) = true ∧
    (get_project_directory envC (.path (PathT.abs ["p"]))).fst = .ok (PathT.abs ["p"]) :=
  ⟨rfl, rfl, rfl⟩

/-- C5 (amended): for an explicit `project_dir`, resolution performs exactly
one existence query on `.tasq` under the given path and no upward search;
when an entry of that name exists (whatever its kind - its being a directory
is not checked) the path is returned unchanged, and when no such entry
exists it fails with `ProjectNotFound` naming the explicit path. -/
theorem explicit_path_resolution (env : Env) (pt : PathT) :
    (get_project_directory env (.path pt)).snd =
      [Effect.fsExists (".tasq" :: toAbsRev env.cwd pt)] ∧
    (env.fs.pathExists (".tasq" :: toAbsRev env.cwd pt) = true →
      get_project_directory env (.path pt) =
        (.ok pt, [Effect.fsExists (".tasq" :: toAbsRev env.cwd pt)])) ∧
    (env.fs.pathExists (".tasq" :: toAbsRev env.cwd pt) = false →
      get_project_directory env (.path pt) =
        (.error (.projectNotFound ("No .tasq directory found in " ++ pathStr pt ++
            ". Please run 'tasq init' in that directory first.")),
         [Effect.fsExists (".tasq" :: toAbsRev env.cwd pt)])) := by
  refine ⟨?_, ?_, ?_⟩
  · by_cases h : env.fs.pathExists (".tasq" :: toAbsRev env.cwd pt) <;>
      simp [get_project_directory, h]
  · intro h
    simp [get_project_directory, h]
  · intro h
    simp [get_project_directory, h]

/-- C8: resolution is idempotent - from a directory that already directly
contains the marker directory, auto-detect returns that very directory (the
first candidate of the upward walk), and an explicit path that contains the
marker directory is returned unchanged. -/
theorem resolution_idempotent (env : Env) (pt : PathT)
    (hAuto : markerAt env.fs env.cwd = true)
    (hExp : markerAt env.fs (toAbsRev env.cwd pt) = true) :
    (get_project_directory env .dot).fst = .ok (PathT.abs env.cwd.reverse) ∧
    (get_project_directory env (.path pt)).fst = .ok pt := by
  constructor
  · have hf := find_tasq_directory_self env.fs env.cwd hAuto
    simp [get_project_directory, hf]
  · have hex : env.fs.pathExists (".tasq" :: toAbsRev env.cwd pt) = true := by
      have := hAuto
      unfold markerAt at hExp
      exact (Bool.and_eq_true _ _).mp hExp |>.left
    simp [get_project_directory, hex]

/-- C8 witness: the concrete project directory resolves to itself under both
the auto-detect sentinel and as an explicit path. -/
theorem resolution_idempotent_witness :
    (get_project_directory envP .dot).fst = .ok (PathT.abs envP.cwd.reverse) ∧
    (get_project_directory envP (.path (PathT.abs ["home", "proj"]))).fst =
      .ok (PathT.abs ["home", "proj"]) :=
  resolution_idempotent envP (PathT.abs ["home", "proj"]) rfl rfl
/-- Ground literal folding at the seam between the summary header and the
pending listing, for normalising composed status strings. -/
theorem fold_pending_seam (x : String) :
    ("\n\n" : String) ++ ("📋 **Pending tasks:**\n" ++ x) =
      "\n\n📋 **Pending tasks:**\n" ++ x := by
  rw [← String.append_assoc]
  rfl

/-- Ground literal folding at the seam between the summary header and the
next-task block. -/
theorem fold_next_seam (x : String) :
    ("\n\n" : String) ++ ("⏭️ **Next task:**\n" ++ x) =
      "\n\n⏭️ **Next task:**\n" ++ x := by
  rw [← String.append_assoc]
  rfl

/-- C7: when resolution and the three list calls all succeed,
`get_project_status` counts each listing by splitting its output on newlines
(an empty output counting as zero, not one) and composes, in order: the
header with the project name (last path segment of the absolute resolved
directory), the absolute path, the three counts, then the next-task block
only when the best-effort next call produced a non-empty task, then either
the pending listing or the all-complete message. -/
theorem get_project_status_success_format (env : Env) (pd : PDir) (d : PathT)
    (tr : List Effect) (aO aE pO pE cO cE : String)
    (hgd : get_project_directory env pd = (.ok d, tr))
    (hA : env.exec ["list"] d = .ran 0 aO aE)
    (hP : env.exec ["list", "--pending"] d = .ran 0 pO pE)
    (hC : env.exec ["list", "--completed"] d = .ran 0 cO cE) :
    ∃ s, (get_project_status env pd).fst = .ok s ∧
      (∀ e, (run_tasq_command env ["next"] d).fst = .error e →
        s = specStatusHeader env d aO.trim pO.trim cO.trim ++ specStatusTail pO.trim) ∧
      ((run_tasq_command env ["next"] d).fst = .ok "" →
        s = specStatusHeader env d aO.trim pO.trim cO.trim ++ specStatusTail pO.trim) ∧
      (∀ nxt, (run_tasq_command env ["next"] d).fst = .ok nxt → nxt ≠ "" →
        s = (specStatusHeader env d aO.trim pO.trim cO.trim ++
              ("⏭️ **Next task:**\n" ++ nxt ++ "\n\n")) ++ specStatusTail pO.trim) := by
  have hrA := run_tasq_command_ok env ["list"] d aO aE hA
  have hrP := run_tasq_command_ok env ["list", "--pending"] d pO pE hP
  have hrC := run_tasq_command_ok env ["list", "--completed"] d cO cE hC
  rcases hn : run_tasq_command env ["next"] d with ⟨nfst, nsnd⟩
  cases nfst with
  | ok nxt =>
    by_cases hne : nxt = ""
    · subst hne
      have heq : (get_project_status env pd).fst =
          .ok (specStatusHeader env d aO.trim pO.trim cO.trim ++ specStatusTail pO.trim) := by
        by_cases hpe : pO.trim = "" <;>
          simp [get_project_status, get_project_status_body, hgd, hrA, hrP, hrC, hn,
            specStatusHeader, specStatusTail, hpe, String.append_assoc,
            fold_pending_seam, fold_next_seam]
      refine ⟨_, heq, ?_, fun _ => rfl, ?_⟩
      · intro e he
        simp at he
      · intro nxt2 hnx hne2
        simp at hnx
        exact absurd hnx.symm hne2
    · have heq : (get_project_status env pd).fst =
          .ok ((specStatusHeader env d aO.trim pO.trim cO.trim ++
                ("⏭️ **Next task:**\n" ++ nxt ++ "\n\n")) ++ specStatusTail pO.trim) := by
        by_cases hpe : pO.trim = "" <;>
          simp [get_project_status, get_project_status_body, hgd, hrA, hrP, hrC, hn, hne,
            specStatusHeader, specStatusTail, hpe, String.append_assoc,
            fold_pending_seam, fold_next_seam]
      refine ⟨_, heq, ?_, ?_, ?_⟩
      · intro e he
        simp at he
      · intro he
        simp at he
        exact absurd he hne
      · intro nxt2 hnx hne2
        simp at hnx
        subst hnx
        rfl
  | error e =>
    have heq : (get_project_status env pd).fst =
        .ok (specStatusHeader env d aO.trim pO.trim cO.trim ++ specStatusTail pO.trim) := by
      by_cases hpe : pO.trim = "" <;>
        simp [get_project_status, get_project_status_body, hgd, hrA, hrP, hrC, hn,
          specStatusHeader, specStatusTail, hpe, String.append_assoc,
          fold_pending_seam, fold_next_seam]
    refine ⟨_, heq, ?_, ?_, ?_⟩
    · intro e2 he
      simp at he
      subst he
      rfl
    · intro he
      simp at he
    · intro nxt hnx hne
      simp at hnx

/-- C7 witness: in the concrete project with two tasks (one pending, one
completed) the summary is composed from the three counted listings. -/
theorem get_project_status_success_format_witness :
    ∃ s, (get_project_status envP .dot).fst = .ok s ∧
      (∀ e, (run_tasq_command envP ["next"] (PathT.abs ["home", "proj"])).fst = .error e →
        s = specStatusHeader envP (PathT.abs ["home", "proj"])
              (String.trim "T1 a\nT2 b") (String.trim "T1 a") (String.trim "T2 b") ++
            specStatusTail (String.trim "T1 a")) ∧
      ((run_tasq_command envP ["next"] (PathT.abs ["home", "proj"])).fst = .ok "" →
        s = specStatusHeader envP (PathT.abs ["home", "proj"])
              (String.trim "T1 a\nT2 b") (String.trim "T1 a") (String.trim "T2 b") ++
            specStatusTail (String.trim "T1 a")) ∧
      (∀ nxt, (run_tasq_command envP ["next"] (PathT.abs ["home", "proj"])).fst = .ok nxt →
        nxt ≠ "" →
        s = (specStatusHeader envP (PathT.abs ["home", "proj"])
              (String.trim "T1 a\nT2 b") (String.trim "T1 a") (String.trim "T2 b") ++
              ("⏭️ **Next task:**\n" ++ nxt ++ "\n\n")) ++
            specStatusTail (String.trim "T1 a")) :=
  get_project_status_success_format envP .dot (PathT.abs ["home", "proj"])
    [Effect.fsExists [".tasq", "proj", "home"], Effect.fsIsDir [".tasq", "proj", "home"]]
    "T1 a\nT2 b" "" "T1 a" "" "T2 b" "" rfl rfl rfl rfl
end Tasq
